import Mathlib

/-!
Verification of the thunderbolt authorization tool (src/auth.c) against its
natural-language specification.

The C code is shallowly embedded: each static function of src/auth.c becomes a
Lean definition of the same name.  The outcomes of the OS calls made during one
authorization attempt (opendir, openat, read, write, close) are supplied up
front in an environment record, and each embedded function additionally
produces the list of observable I/O events it performs, so that ordering and
resource claims can be stated over the event trace.
-/

/-- Character code of the grant byte '1' (User-level grant). -/
def GRANT_USER : Int := 49

/-- Character code of the grant byte '2' (Secure-level grant). -/
def GRANT_SECURE : Int := 50

/-- Modelled from the spec: TB_KEY_CHARS, the fixed length in bytes of the
on-disk key material (the defining header is not under src/; the spec only
requires a fixed length, and the exact value does not affect any claim). -/
def TB_KEY_CHARS : Nat := 64

/-- Security levels of the spec data model (DisplayPortOnly is vendor-reported
and not engine-selectable, so it is not modelled). -/
inductive SecurityLevel
  | none
  | user
  | secure
deriving DecidableEq

/-- Modelled from the spec: the integer value returned by
tb_manager_get_security_level (manager.c is not under src/).  The engine in
src/auth.c treats the value as an int: it compares it with 1 for the no-op
path and with the character code '2' (50) for the secure path, and writes the
very same value as the grant byte.  The grant-byte table of the spec
(User writes '1', Secure writes '2') therefore forces User to be 49 and
Secure to be 50, and the lowest level None to be below 1; it is taken as 0. -/
def securityCode : SecurityLevel → Int
  | SecurityLevel.none => 0
  | SecurityLevel.user => GRANT_USER
  | SecurityLevel.secure => GRANT_SECURE

/-- Operator policy of the spec data model (bolt enum TB_POLICY_*). -/
inductive TbPolicy
  | manual
  | auto
deriving DecidableEq

/-- Device status of the spec data model / state machine. -/
inductive TbStatus
  | disconnected
  | connected
  | authorizing
  | authorized
  | authError
deriving DecidableEq

/-- The device record.  uid is the byte string the C code compares with
memcmp; inStore models tb_device_in_store and policy tb_device_get_policy
(the accessors are declared outside src/, as plain field reads). -/
structure TbDevice where
  uid : List Nat
  status : TbStatus
  policy : TbPolicy
  inStore : Bool
deriving DecidableEq

/-- Identities of the descriptors an authorization attempt may open:
the attribute directory, the unique_id / key / authorized attributes,
and the on-disk key file opened inside copy_key. -/
inductive FdId
  | dirH
  | uidFd
  | keyFd
  | authFd
  | keyFileFd
deriving DecidableEq

/-- Observable I/O events of one authorization attempt. -/
inductive Ev
  | openDir
  | openFd (i : FdId)
  | readAttr (i : FdId)
  | writeBytes (i : FdId) (bytes : List Nat)
  | writeChar (i : FdId) (c : Int)
  | closeFd (i : FdId)
deriving DecidableEq

/-- Typed failures, one constructor per g_set_error site of src/auth.c. -/
inductive TbError
  | closeFailed
  | writeCharFailed
  | openAtFailed (name : String)
  | readUidFailed
  | uidShortRead
  | uidMismatch
  | keyFileOpenFailed
  | keyShortRead
  | keyWriteFailed
  | openDirFailed
  | ensureKeyFailed
deriving DecidableEq

/-- The errors raised by the byte comparison inside tb_verify_uid
(both use the G_IO_ERROR_FAILED code, not an errno-derived one); the
spec groups them as VerificationError. -/
def TbError.isVerificationError : TbError → Bool
  | TbError.uidShortRead => true
  | TbError.uidMismatch => true
  | _ => false

instance {α β : Type} [DecidableEq α] [DecidableEq β] : DecidableEq (Except α β) :=
  fun a b =>
  match a, b with
  | Except.error x, Except.error y =>
      if h : x = y then isTrue (by rw [h]) else isFalse (by simp [h])
  | Except.ok x, Except.ok y =>
      if h : x = y then isTrue (by rw [h]) else isFalse (by simp [h])
  | Except.error _, Except.ok _ => isFalse (fun hh => Except.noConfusion hh)
  | Except.ok _, Except.error _ => isFalse (fun hh => Except.noConfusion hh)

/-- Outcomes of the OS calls made during one authorization attempt, fixed up
front.  Read outcomes for the unique_id attribute are a final (post EINTR
retry) errno or the bytes the single read returned; the on-disk key file is a
regular file modelled by its content, each read returning as many of the
requested bytes as remain.  Write outcomes are the final (post EINTR retry)
return value of the write call: none stands for -1 with a non-EINTR errno,
some k for k bytes transferred. -/
structure AuthEnv where
  security : Int
  dirOk : Bool
  uidOpenOk : Bool
  uidReadResult : Except Nat (List Nat)
  ensureKeyOk : Option Bool
  keyAttrOpenOk : Bool
  keyFileOpenOk : Bool
  keyFileBytes : List Nat
  keyWriteResult : Option Nat
  keyCloseOk : Bool
  authOpenOk : Bool
  grantWriteResult : Option Nat
  authCloseOk : Bool
deriving DecidableEq

/-- Embeds tb_verify_uid (src/auth.c:103-138): one read of strlen(uid) bytes
(EINTR retried), failing on a read error, on n not equal to the uid length,
and on a memcmp mismatch. -/
def tb_verify_uid (readResult : Except Nat (List Nat)) (uid : List Nat) :
    Except TbError Unit :=
  match readResult with
  | Except.error _ => Except.error TbError.readUidFailed
  | Except.ok buffer =>
    if buffer.length ≠ uid.length then Except.error TbError.uidShortRead
    else if buffer ≠ uid then Except.error TbError.uidMismatch
    else Except.ok ()

/-- The read loop of tb_read_all: a single read returns
min(nbyte, bytes remaining); the loop ends when a read returns 0 or when
nbyte is exhausted, accumulating nread.  Every continuing iteration
transfers at least one byte of nbyte, so the loop runs at most nbyte
times and structural recursion on a fuel argument initialized to nbyte
is exact. -/
def readLoop : Nat → List Nat → Nat → Nat → Nat
  | 0, _, _, nread => nread
  | fuel + 1, c, nbyte, nread =>
    if min nbyte c.length = 0 then nread
    else if nbyte - min nbyte c.length = 0 then nread + min nbyte c.length
    else readLoop fuel (List.drop (min nbyte c.length) c)
           (nbyte - min nbyte c.length) (nread + min nbyte c.length)

/-- Embeds tb_read_all (src/auth.c:140-181) over the regular-file model
(the content is a byte list; OS read errors do not occur on it). -/
def tb_read_all (content : List Nat) (nbyte : Nat) : Nat :=
  readLoop nbyte content nbyte 0

theorem readLoop_eq : ∀ fuel c nbyte nread, nbyte ≤ fuel →
    readLoop fuel c nbyte nread = nread + min nbyte c.length := by
  intro fuel
  induction fuel with
  | zero =>
    intro c nbyte nread h
    have hz : nbyte = 0 := by omega
    subst hz
    simp [readLoop]
  | succ fuel ih =>
    intro c nbyte nread h
    simp only [readLoop]
    by_cases h1 : min nbyte c.length = 0
    · simp [h1]
    · rw [if_neg h1]
      by_cases h2 : nbyte - min nbyte c.length = 0
      · rw [if_pos h2]
      · rw [if_neg h2, ih _ _ _ (by omega)]
        simp only [List.length_drop]
        omega

theorem tb_read_all_eq (content : List Nat) (nbyte : Nat) :
    tb_read_all content nbyte = min nbyte content.length := by
  rw [tb_read_all, readLoop_eq _ _ _ _ (Nat.le_refl nbyte)]
  omega

/-- Embeds copy_key (src/auth.c:183-230): open the on-disk key file, read the
entire TB_KEY_CHARS bytes via tb_read_all, fail if fewer were obtained, then
deliver the buffer to the descriptor dst (the parameter the C source calls
to, the key attribute) in one single write (EINTR retried), failing if the
write transferred a different number of bytes.  Returns the result together
with the I/O events performed.  Mirroring the source, the key-file descriptor
is never closed. -/
def copy_key (env : AuthEnv) (dst : FdId) : Except TbError Unit × List Ev :=
  if env.keyFileOpenOk = false then
    (Except.error TbError.keyFileOpenFailed, [])
  else
    let n := tb_read_all env.keyFileBytes TB_KEY_CHARS
    if n ≠ TB_KEY_CHARS then
      (Except.error TbError.keyShortRead, [Ev.openFd FdId.keyFileFd])
    else
      match env.keyWriteResult with
      | none =>
        (Except.error TbError.keyWriteFailed, [Ev.openFd FdId.keyFileFd])
      | some k =>
        if k ≠ TB_KEY_CHARS then
          (Except.error TbError.keyWriteFailed,
            [Ev.openFd FdId.keyFileFd,
             Ev.writeBytes dst ((env.keyFileBytes.take TB_KEY_CHARS).take k)])
        else
          (Except.ok (),
            [Ev.openFd FdId.keyFileFd,
             Ev.writeBytes dst ((env.keyFileBytes.take TB_KEY_CHARS).take k)])

/-- Result of one run of tb_device_authorize: the boolean the C function
returns, the GError it left behind (none when no error was set), and the
I/O events performed. -/
structure AuthResult where
  ok : Bool
  err : Option TbError
  trace : List Ev
deriving DecidableEq

/-- Embeds the shared tail of tb_device_authorize (src/auth.c:306-318):
open the authorized attribute, write the single grant byte with
tb_write_char (src/auth.c:59-81; EINTR retried, an error is set only when
the final write returned -1), then tb_close it.  The security argument is
the possibly downgraded value the grant byte is taken from. -/
def writeGrant (env : AuthEnv) (security : Int) (tr : List Ev) (dev : TbDevice) :
    AuthResult × TbDevice :=
  if env.authOpenOk = false then
    ({ ok := false, err := some (TbError.openAtFailed "authorized"), trace := tr }, dev)
  else
    match env.grantWriteResult with
    | none =>
      ({ ok := false, err := some TbError.writeCharFailed,
         trace := tr ++ [Ev.openFd FdId.authFd, Ev.closeFd FdId.authFd] }, dev)
    | some n =>
      if n = 0 then
        ({ ok := false, err := none,
           trace := tr ++ [Ev.openFd FdId.authFd, Ev.closeFd FdId.authFd] }, dev)
      else if env.authCloseOk then
        ({ ok := true, err := none,
           trace := tr ++ [Ev.openFd FdId.authFd, Ev.writeChar FdId.authFd security,
                           Ev.closeFd FdId.authFd] }, dev)
      else
        ({ ok := false, err := some TbError.closeFailed,
           trace := tr ++ [Ev.openFd FdId.authFd, Ev.writeChar FdId.authFd security,
                           Ev.closeFd FdId.authFd] }, dev)

/-- Embeds tb_device_authorize (src/auth.c:232-319).  The C function never
assigns to any field of dev, so the device record is returned as it came in.
The security value is the int obtained from tb_manager_get_security_level;
below 1 the function returns TRUE at once, and the secure branch is taken
when it equals the character code '2' (50).  On the copy_key failure path
the source closes the variable fd, which still holds the (already closed)
unique_id descriptor, and the key descriptor is not closed: the trace
reproduces this faithfully. -/
def tb_device_authorize (env : AuthEnv) (dev : TbDevice) : AuthResult × TbDevice :=
  if env.security < 1 then
    ({ ok := true, err := none, trace := [] }, dev)
  else if env.dirOk = false then
    ({ ok := false, err := some TbError.openDirFailed, trace := [] }, dev)
  else if env.uidOpenOk = false then
    ({ ok := false, err := some (TbError.openAtFailed "unique_id"),
       trace := [Ev.openDir] }, dev)
  else
    match tb_verify_uid env.uidReadResult dev.uid with
    | Except.error e =>
      ({ ok := false, err := some e,
         trace := [Ev.openDir, Ev.openFd FdId.uidFd, Ev.readAttr FdId.uidFd,
                   Ev.closeFd FdId.uidFd] }, dev)
    | Except.ok _ =>
      if env.security = 50 then
        match env.ensureKeyOk with
        | none =>
          ({ ok := false, err := some TbError.ensureKeyFailed,
             trace := [Ev.openDir, Ev.openFd FdId.uidFd, Ev.readAttr FdId.uidFd,
                       Ev.closeFd FdId.uidFd] }, dev)
        | some created =>
          if env.keyAttrOpenOk = false then
            ({ ok := false, err := some (TbError.openAtFailed "key"),
               trace := [Ev.openDir, Ev.openFd FdId.uidFd, Ev.readAttr FdId.uidFd,
                         Ev.closeFd FdId.uidFd] }, dev)
          else
            match copy_key env FdId.keyFd with
            | (Except.error e, ck) =>
              ({ ok := false, err := some e,
                 trace := ([Ev.openDir, Ev.openFd FdId.uidFd, Ev.readAttr FdId.uidFd,
                            Ev.closeFd FdId.uidFd, Ev.openFd FdId.keyFd] ++ ck)
                          ++ [Ev.closeFd FdId.uidFd] }, dev)
            | (Except.ok _, ck) =>
              if env.keyCloseOk = false then
                ({ ok := false, err := some TbError.closeFailed,
                   trace := ([Ev.openDir, Ev.openFd FdId.uidFd, Ev.readAttr FdId.uidFd,
                              Ev.closeFd FdId.uidFd, Ev.openFd FdId.keyFd] ++ ck)
                            ++ [Ev.closeFd FdId.keyFd] }, dev)
              else
                writeGrant env (if created then GRANT_USER else env.security)
                  (([Ev.openDir, Ev.openFd FdId.uidFd, Ev.readAttr FdId.uidFd,
                     Ev.closeFd FdId.uidFd, Ev.openFd FdId.keyFd] ++ ck)
                   ++ [Ev.closeFd FdId.keyFd]) dev
      else
        writeGrant env env.security
          [Ev.openDir, Ev.openFd FdId.uidFd, Ev.readAttr FdId.uidFd,
           Ev.closeFd FdId.uidFd] dev

/-- Environment of one CLI command invocation: option parsing outcome, the
remaining argument count, the result of tb_manager_lookup, the do_store and
do_auto option flags, the engine environment, and the tb_manager_store
outcome. -/
structure CmdEnv where
  parseOk : Bool
  argc : Nat
  lookupResult : Option TbDevice
  do_store : Bool
  do_auto : Bool
  authEnv : AuthEnv
  storeOk : Bool
deriving DecidableEq

/-- Result of one CLI command: the process exit status, whether
tb_device_authorize was invoked, whether tb_manager_store was invoked, and
the device record as the command left it (none when lookup never produced
one). -/
structure CmdResult where
  exit : Nat
  engineInvoked : Bool
  storeInvoked : Bool
  dev : Option TbDevice
deriving DecidableEq

/-- Embeds authorize_device (src/auth.c:328-389): parse options, look up the
device, run the engine, and only on engine success apply do_auto (which
implies do_store and sets the policy to TB_POLICY_AUTO) and do_store (which
invokes tb_manager_store). -/
def authorize_device (env : CmdEnv) : CmdResult :=
  if env.parseOk = false then
    { exit := 1, engineInvoked := false, storeInvoked := false, dev := none }
  else if env.argc < 2 then
    { exit := 1, engineInvoked := false, storeInvoked := false, dev := none }
  else
    match env.lookupResult with
    | none => { exit := 1, engineInvoked := false, storeInvoked := false, dev := none }
    | some dev =>
      match tb_device_authorize env.authEnv dev with
      | (res, dev1) =>
        if res.ok = false then
          { exit := 1, engineInvoked := true, storeInvoked := false, dev := some dev1 }
        else
          let dev2 := if env.do_auto then { dev1 with policy := TbPolicy.auto } else dev1
          if env.do_store || env.do_auto then
            if env.storeOk = false then
              { exit := 1, engineInvoked := true, storeInvoked := true, dev := some dev2 }
            else
              { exit := 0, engineInvoked := true, storeInvoked := true, dev := some dev2 }
          else
            { exit := 0, engineInvoked := true, storeInvoked := false, dev := some dev2 }

/-- Embeds auto_device (src/auth.c:391-446): parse, look up the device, and
report success without invoking the engine when the device is not in the
store or its policy is not TB_POLICY_AUTO; otherwise run the engine. -/
def auto_device (env : CmdEnv) : CmdResult :=
  if env.parseOk = false then
    { exit := 1, engineInvoked := false, storeInvoked := false, dev := none }
  else if env.argc < 2 then
    { exit := 1, engineInvoked := false, storeInvoked := false, dev := none }
  else
    match env.lookupResult with
    | none => { exit := 1, engineInvoked := false, storeInvoked := false, dev := none }
    | some dev =>
      if dev.inStore = false then
        { exit := 0, engineInvoked := false, storeInvoked := false, dev := some dev }
      else if dev.policy ≠ TbPolicy.auto then
        { exit := 0, engineInvoked := false, storeInvoked := false, dev := some dev }
      else
        match tb_device_authorize env.authEnv dev with
        | (res, dev1) =>
          if res.ok = false then
            { exit := 1, engineInvoked := true, storeInvoked := false, dev := some dev1 }
          else
            { exit := 0, engineInvoked := true, storeInvoked := false, dev := some dev1 }

theorem writeGrant_snd (env : AuthEnv) (s : Int) (tr : List Ev) (dev : TbDevice) :
    (writeGrant env s tr dev).2 = dev := by
  unfold writeGrant
  repeat' split
  all_goals rfl

theorem writeGrant_ok_err_none (env : AuthEnv) (s : Int) (tr : List Ev)
    (dev : TbDevice) (h : (writeGrant env s tr dev).1.ok = true) :
    (writeGrant env s tr dev).1.err = none := by
  unfold writeGrant at h ⊢
  repeat' split at h
  all_goals simp_all

theorem tb_device_authorize_snd (env : AuthEnv) (dev : TbDevice) :
    (tb_device_authorize env dev).2 = dev := by
  unfold tb_device_authorize
  repeat' split
  all_goals first | rfl | apply writeGrant_snd

/-- A concrete device: uid is the single byte string "A". -/
def devA : TbDevice :=
  { uid := [65], status := TbStatus.connected, policy := TbPolicy.manual,
    inStore := true }

/-- A concrete environment where every OS call succeeds and security is the
None level. -/
def envNone : AuthEnv :=
  { security := 0, dirOk := true, uidOpenOk := true,
    uidReadResult := Except.ok [65], ensureKeyOk := none, keyAttrOpenOk := true,
    keyFileOpenOk := true, keyFileBytes := [], keyWriteResult := none,
    keyCloseOk := true, authOpenOk := true, grantWriteResult := some 1,
    authCloseOk := true }

/-- A concrete environment for a fully successful User-level run: the live
unique_id matches devA.uid and the grant write and close succeed. -/
def envUserOk : AuthEnv :=
  { security := 49, dirOk := true, uidOpenOk := true,
    uidReadResult := Except.ok [65], ensureKeyOk := none, keyAttrOpenOk := true,
    keyFileOpenOk := true, keyFileBytes := [], keyWriteResult := none,
    keyCloseOk := true, authOpenOk := true, grantWriteResult := some 1,
    authCloseOk := true }

/-- C5: for a device at security level None (the lowest level),
tb_device_authorize succeeds immediately and performs no attribute I/O at
all: the event trace is empty, so no directory open, no unique_id read and
no key or authorized write takes place. -/
theorem none_level_succeeds_without_io (env : AuthEnv) (dev : TbDevice)
    (h : env.security = securityCode SecurityLevel.none) :
    (tb_device_authorize env dev).1.ok = true ∧
    (tb_device_authorize env dev).1.trace = [] := by
  unfold tb_device_authorize
  simp only [h, securityCode]
  norm_num

theorem none_level_succeeds_without_io_witness :
    (tb_device_authorize envNone devA).1.ok = true ∧
    (tb_device_authorize envNone devA).1.trace = [] :=
  none_level_succeeds_without_io envNone devA (by decide)

/-- C4 counterexample: on a fully successful User-level run (uid verified,
grant byte written, all closes succeed) tb_device_authorize returns TRUE yet
the device status field is left untouched: it is not set to Authorized (the
source function never assigns any status). -/
theorem authorize_success_leaves_status_unchanged :
    (tb_device_authorize envUserOk devA).1.ok = true ∧
    (tb_device_authorize envUserOk devA).2.status ≠ TbStatus.authorized := by
  decide

theorem writeGrant_fail_err (env : AuthEnv) (s : Int) (tr : List Ev)
    (dev : TbDevice) (h : (writeGrant env s tr dev).1.ok = false) :
    (writeGrant env s tr dev).1.err ≠ none ∨ env.grantWriteResult = some 0 := by
  unfold writeGrant at h ⊢
  repeat' split at h
  all_goals simp_all

/-- C4 amended: tb_device_authorize never modifies the device record, so
device.status is left unchanged rather than being set to Authorized or
AuthError; the outcome is reported only through the return value: on full
success it returns TRUE with no error set, and on any failure it returns
FALSE with the specific error set — except in the one corner case of the
grant write transferring zero bytes, where, mirroring tb_write_char, it
returns FALSE with no error set. -/
theorem authorize_reports_result_without_status_write (env : AuthEnv)
    (dev : TbDevice) :
    (tb_device_authorize env dev).2 = dev ∧
    ((tb_device_authorize env dev).1.ok = true →
      (tb_device_authorize env dev).1.err = none) ∧
    ((tb_device_authorize env dev).1.ok = false →
      (tb_device_authorize env dev).1.err ≠ none ∨
        env.grantWriteResult = some 0) := by
  refine ⟨tb_device_authorize_snd env dev, ?_, ?_⟩
  · intro h
    unfold tb_device_authorize at h ⊢
    repeat' split at h
    all_goals try simp_all
    all_goals try rw [if_neg (show ¬ env.security < 1 by omega)]
    all_goals exact writeGrant_ok_err_none _ _ _ _ h
  · intro h
    unfold tb_device_authorize at h ⊢
    repeat' split at h
    all_goals try simp_all
    all_goals try rw [if_neg (show ¬ env.security < 1 by omega)]
    all_goals try exact Or.inl (fun hc => Option.noConfusion hc)
    all_goals exact writeGrant_fail_err _ _ _ _ h

theorem authorize_reports_result_without_status_write_witness :
    (tb_device_authorize envUserOk devA).2 = devA ∧
    ((tb_device_authorize envUserOk devA).1.ok = true →
      (tb_device_authorize envUserOk devA).1.err = none) ∧
    ((tb_device_authorize envUserOk devA).1.ok = false →
      (tb_device_authorize envUserOk devA).1.err ≠ none ∨
        envUserOk.grantWriteResult = some 0) :=
  authorize_reports_result_without_status_write envUserOk devA

/-- C9: when the auto command finds the device but the device is not in the
external store, or its stored policy is not Auto, the process exits with
status zero, tb_device_authorize is never invoked, and the device record is
returned unchanged. -/
theorem auto_cmd_skips_engine (env : CmdEnv) (dev : TbDevice)
    (hparse : env.parseOk = true) (hargc : 2 ≤ env.argc)
    (hlook : env.lookupResult = some dev)
    (hskip : dev.inStore = false ∨ dev.policy ≠ TbPolicy.auto) :
    (auto_device env).exit = 0 ∧ (auto_device env).engineInvoked = false ∧
    (auto_device env).dev = some dev := by
  unfold auto_device
  simp only [hparse, hlook]
  rw [if_neg (by simp), if_neg (by omega)]
  rcases hskip with hs | hs
  · simp [hs]
  · by_cases hst : dev.inStore = false
    · simp [hst]
    · simp [hst, hs]

theorem auto_cmd_skips_engine_witness :
    (auto_device { parseOk := true, argc := 2, lookupResult := some devA,
                   do_store := false, do_auto := false, authEnv := envUserOk,
                   storeOk := true }).exit = 0 ∧
    (auto_device { parseOk := true, argc := 2, lookupResult := some devA,
                   do_store := false, do_auto := false, authEnv := envUserOk,
                   storeOk := true }).engineInvoked = false ∧
    (auto_device { parseOk := true, argc := 2, lookupResult := some devA,
                   do_store := false, do_auto := false, authEnv := envUserOk,
                   storeOk := true }).dev = some devA :=
  auto_cmd_skips_engine _ devA (by decide) (by decide) (by decide)
    (Or.inr (by decide))

/-- An engine environment in which authorization fails at the very first
protocol step (the attribute directory cannot be opened). -/
def envDirFail : AuthEnv :=
  { security := 49, dirOk := false, uidOpenOk := true,
    uidReadResult := Except.ok [65], ensureKeyOk := none, keyAttrOpenOk := true,
    keyFileOpenOk := true, keyFileBytes := [], keyWriteResult := none,
    keyCloseOk := true, authOpenOk := true, grantWriteResult := some 1,
    authCloseOk := true }

/-- C10: in the authorize command, when tb_device_authorize fails, the
process exits with a failure status, tb_manager_store is not invoked, and
the device record keeps its original policy; and whenever the store is
invoked at all, the engine must have been invoked successfully first. -/
theorem authorize_cmd_store_only_after_success (env : CmdEnv) (dev : TbDevice)
    (hparse : env.parseOk = true) (hargc : 2 ≤ env.argc)
    (hlook : env.lookupResult = some dev)
    (hfail : (tb_device_authorize env.authEnv dev).1.ok = false) :
    (authorize_device env).exit = 1 ∧
    (authorize_device env).storeInvoked = false ∧
    (authorize_device env).dev = some dev ∧
    (∀ e : CmdEnv, (authorize_device e).storeInvoked = true →
      ∃ d, e.lookupResult = some d ∧
        (tb_device_authorize e.authEnv d).1.ok = true) := by
  have hsnd := tb_device_authorize_snd env.authEnv dev
  refine ⟨?_, ?_, ?_, ?_⟩
  case _ | _ | _ =>
    unfold authorize_device
    simp only [hparse, hlook]
    rw [if_neg (by simp), if_neg (by omega)]
    simp [hfail, hsnd]
  case _ =>
    intro e he
    unfold authorize_device at he
    repeat' split at he
    all_goals simp_all

/-- Predicate picking out write events to the descriptor dst. -/
def isWriteTo (dst : FdId) : Ev → Bool
  | Ev.writeBytes i _ => i == dst
  | _ => false

theorem copy_key_no_writeChar (env : AuthEnv) (dst i : FdId) (x : Int) :
    Ev.writeChar i x ∉ (copy_key env dst).2 := by
  unfold copy_key
  repeat' split
  all_goals try simp
  all_goals split <;> simp

theorem copy_key_ok_trace (env : AuthEnv) (dst : FdId)
    (h : (copy_key env dst).1 = Except.ok ()) :
    ∃ bytes, (copy_key env dst).2 = [Ev.openFd FdId.keyFileFd,
        Ev.writeBytes dst bytes] ∧ bytes.length = TB_KEY_CHARS := by
  unfold copy_key at h ⊢
  by_cases h1 : env.keyFileOpenOk = false
  · simp [h1] at h
  · by_cases h2 : tb_read_all env.keyFileBytes TB_KEY_CHARS = TB_KEY_CHARS
    · rcases hw : env.keyWriteResult with _ | k
      · simp [h1, h2, hw] at h
      · by_cases h3 : k = TB_KEY_CHARS
        · refine ⟨(env.keyFileBytes.take TB_KEY_CHARS).take k, ?_, ?_⟩
          · simp [h1, h2, hw, h3]
          · rw [tb_read_all_eq] at h2
            simp only [List.length_take]
            omega
        · simp [h1, h2, hw, h3] at h
    · simp [h1, h2] at h

/-- C7: when the stored key file holds fewer than TB_KEY_CHARS bytes, the
complete read obtains fewer bytes than the fixed key length; copy_key then
fails with the distinct could-not-read-entire-key error — it is not treated
as the key being absent — and performs no write at all to the key
attribute. -/
theorem copy_key_short_read_fails (env : AuthEnv) (dst : FdId)
    (hopen : env.keyFileOpenOk = true)
    (hshort : env.keyFileBytes.length < TB_KEY_CHARS) :
    copy_key env dst =
      (Except.error TbError.keyShortRead, [Ev.openFd FdId.keyFileFd]) ∧
    (∀ bytes, Ev.writeBytes dst bytes ∉ (copy_key env dst).2) := by
  have hn : tb_read_all env.keyFileBytes TB_KEY_CHARS =
      env.keyFileBytes.length := by
    rw [tb_read_all_eq]; omega
  have heq : copy_key env dst =
      (Except.error TbError.keyShortRead, [Ev.openFd FdId.keyFileFd]) := by
    unfold copy_key
    simp [hopen, hn, show ¬ env.keyFileBytes.length = TB_KEY_CHARS from by omega]
  exact ⟨heq, by rw [heq]; simp⟩

/-- A concrete environment for the C7 witness: the key file holds a single
byte, fewer than TB_KEY_CHARS. -/
def envShortKey : AuthEnv :=
  { envUserOk with keyFileBytes := [7], keyWriteResult := some TB_KEY_CHARS }

theorem copy_key_short_read_fails_witness :
    copy_key envShortKey FdId.keyFd =
      (Except.error TbError.keyShortRead, [Ev.openFd FdId.keyFileFd]) ∧
    (∀ bytes, Ev.writeBytes FdId.keyFd bytes ∉ (copy_key envShortKey FdId.keyFd).2) :=
  copy_key_short_read_fails envShortKey FdId.keyFd (by decide) (by decide)

/-- C8: the key bytes are delivered by a single write call: every copy_key
trace holds at most one write event to the destination descriptor; and when
that single write transfers k bytes different from the full TB_KEY_CHARS,
copy_key fails with the I/O error (after the one partial write) instead of
writing the remaining bytes in further chunks. -/
theorem copy_key_single_write (env : AuthEnv) (dst : FdId) (k : Nat)
    (hopen : env.keyFileOpenOk = true)
    (hfull : TB_KEY_CHARS ≤ env.keyFileBytes.length)
    (hw : env.keyWriteResult = some k) (hk : k ≠ TB_KEY_CHARS) :
    (copy_key env dst).1 = Except.error TbError.keyWriteFailed ∧
    ((copy_key env dst).2.filter (isWriteTo dst)).length = 1 ∧
    (∀ e : AuthEnv, ∀ d : FdId,
      ((copy_key e d).2.filter (isWriteTo d)).length ≤ 1) := by
  have hn : tb_read_all env.keyFileBytes TB_KEY_CHARS = TB_KEY_CHARS := by
    rw [tb_read_all_eq]; omega
  have heq : copy_key env dst =
      (Except.error TbError.keyWriteFailed,
        [Ev.openFd FdId.keyFileFd,
         Ev.writeBytes dst ((env.keyFileBytes.take TB_KEY_CHARS).take k)]) := by
    unfold copy_key
    simp [hopen, hn, hw, hk]
  refine ⟨by rw [heq], by rw [heq]; simp [isWriteTo], ?_⟩
  intro e d
  unfold copy_key
  repeat' split
  all_goals try simp [isWriteTo]
  all_goals split <;> simp [isWriteTo]

/-- A concrete environment for the C8 witness: a full key file but a write
that transfers only 10 of the TB_KEY_CHARS bytes. -/
def envShortWrite : AuthEnv :=
  { envUserOk with keyFileBytes := List.replicate TB_KEY_CHARS 7
                   keyWriteResult := some 10 }

theorem copy_key_single_write_witness :
    (copy_key envShortWrite FdId.keyFd).1 =
      Except.error TbError.keyWriteFailed ∧
    ((copy_key envShortWrite FdId.keyFd).2.filter (isWriteTo FdId.keyFd)).length = 1 ∧
    (∀ e : AuthEnv, ∀ d : FdId,
      ((copy_key e d).2.filter (isWriteTo d)).length ≤ 1) :=
  copy_key_single_write envShortWrite FdId.keyFd 10 (by decide) (by decide)
    (by decide) (by decide)

/-- A concrete environment on which copy_key fails (short key file) inside a
Secure-level authorization attempt whose every other OS call succeeds. -/
def envLeak : AuthEnv :=
  { security := 50, dirOk := true, uidOpenOk := true,
    uidReadResult := Except.ok [65], ensureKeyOk := some false,
    keyAttrOpenOk := true, keyFileOpenOk := true, keyFileBytes := [],
    keyWriteResult := some TB_KEY_CHARS, keyCloseOk := true,
    authOpenOk := true, grantWriteResult := some 1, authCloseOk := true }

/-- C6 (code bug): on the copy_key failure path the source executes
close (fd) on the stale, already-closed unique_id descriptor instead of
closing keyfd, so the key descriptor opened at src/auth.c:287 is leaked:
the trace opens the key attribute but never closes it, and closes the
unique_id descriptor twice. -/
theorem keyfd_leaked_on_copy_key_failure :
    Ev.openFd FdId.keyFd ∈ (tb_device_authorize envLeak devA).1.trace ∧
    Ev.closeFd FdId.keyFd ∉ (tb_device_authorize envLeak devA).1.trace ∧
    ((tb_device_authorize envLeak devA).1.trace.filter
        (fun e => e == Ev.closeFd FdId.uidFd)).length = 2 ∧
    (tb_device_authorize envLeak devA).1.ok = false := by
  decide

/-- C1: whenever the protocol reaches the unique_id read (a level requiring
authorization, directory and attribute opened) and the single read returns
bytes that are not byte-exactly device.uid — including a short read — then
tb_device_authorize fails, the error set is one of the verification errors,
and the trace holds no write to the key or authorized attribute. -/
theorem uid_mismatch_fails_without_writes (env : AuthEnv) (dev : TbDevice)
    (b : List Nat) (hsec : 1 ≤ env.security) (hdir : env.dirOk = true)
    (hopen : env.uidOpenOk = true) (hread : env.uidReadResult = Except.ok b)
    (hne : b ≠ dev.uid) :
    (tb_device_authorize env dev).1.ok = false ∧
    (∃ e, (tb_device_authorize env dev).1.err = some e ∧
      e.isVerificationError = true) ∧
    (∀ bytes, Ev.writeBytes FdId.keyFd bytes ∉
      (tb_device_authorize env dev).1.trace) ∧
    (∀ c, Ev.writeChar FdId.authFd c ∉ (tb_device_authorize env dev).1.trace) := by
  have hv : ∃ e, tb_verify_uid env.uidReadResult dev.uid = Except.error e ∧
      e.isVerificationError = true := by
    unfold tb_verify_uid
    rw [hread]
    by_cases hlen : b.length = dev.uid.length
    · exact ⟨TbError.uidMismatch, by simp [hlen, hne], rfl⟩
    · exact ⟨TbError.uidShortRead, by simp [hlen], rfl⟩
  obtain ⟨e, he, hve⟩ := hv
  unfold tb_device_authorize
  rw [if_neg (show ¬ env.security < 1 by omega)]
  simp [hdir, hopen, he, hve]

/-- A concrete environment whose live unique_id bytes differ from the uid of
devA. -/
def envBadUid : AuthEnv :=
  { envUserOk with uidReadResult := Except.ok [66] }

theorem uid_mismatch_fails_without_writes_witness :
    (tb_device_authorize envBadUid devA).1.ok = false ∧
    (∃ e, (tb_device_authorize envBadUid devA).1.err = some e ∧
      e.isVerificationError = true) ∧
    (∀ bytes, Ev.writeBytes FdId.keyFd bytes ∉
      (tb_device_authorize envBadUid devA).1.trace) ∧
    (∀ c, Ev.writeChar FdId.authFd c ∉
      (tb_device_authorize envBadUid devA).1.trace) :=
  uid_mismatch_fails_without_writes envBadUid devA [66] (by decide) (by decide)
    (by decide) (by decide) (by decide)

theorem eq_append_cons_unique {α : Type} {l1 l2 pre post : List α} {x y : α}
    (h : l1 ++ x :: l2 = pre ++ y :: post) (h1 : y ∉ l1) (h2 : y ∉ l2) :
    l1 = pre ∧ x = y ∧ l2 = post := by
  induction l1 generalizing pre with
  | nil =>
    cases pre with
    | nil =>
      simp only [List.nil_append, List.cons.injEq] at h
      exact ⟨rfl, h.1, h.2⟩
    | cons p pre =>
      simp only [List.nil_append, List.cons_append, List.cons.injEq] at h
      exact absurd (show y ∈ l2 by rw [h.2]; simp) h2
  | cons a l1 ih =>
    cases pre with
    | nil =>
      simp only [List.cons_append, List.nil_append, List.cons.injEq] at h
      exact absurd (show y ∈ a :: l1 by rw [← h.1]; exact List.mem_cons_self a l1) h1
    | cons p pre =>
      simp only [List.cons_append, List.cons.injEq] at h
      have hrec := ih h.2 (fun hm => h1 (List.mem_cons_of_mem a hm))
      exact ⟨by rw [h.1, hrec.1], hrec.2.1, hrec.2.2⟩

theorem no_writeChar_split {tr pre post : List Ev} {c : Int}
    (h : tr = pre ++ Ev.writeChar FdId.authFd c :: post)
    (hn : Ev.writeChar FdId.authFd c ∉ tr) : False :=
  hn (by rw [h]; exact List.mem_append_right pre (List.mem_cons_self _ _))

theorem authorize_secure_grant_shape (env : AuthEnv) (dev : TbDevice)
    (hsec : env.security = 50) (c : Int) (pre post : List Ev)
    (h : (tb_device_authorize env dev).1.trace =
      pre ++ Ev.writeChar FdId.authFd c :: post) :
    ∃ created bytes, env.ensureKeyOk = some created ∧
      c = (if created = true then GRANT_USER else GRANT_SECURE) ∧
      Ev.writeBytes FdId.keyFd bytes ∈ pre ∧ bytes.length = TB_KEY_CHARS := by
  have hncw := copy_key_no_writeChar env FdId.keyFd FdId.authFd
  unfold tb_device_authorize at h
  rw [hsec] at h
  norm_num at h
  split at h
  · exact (no_writeChar_split h (by simp)).elim
  · split at h
    · exact (no_writeChar_split h (by simp)).elim
    · split at h
      · exact (no_writeChar_split h (by simp)).elim
      · split at h
        · exact (no_writeChar_split h (by simp)).elim
        · next created heqEK =>
          split at h
          · exact (no_writeChar_split h (by simp)).elim
          · split at h
            · next x e ck heq =>
              rw [heq] at hncw
              simp only [] at hncw
              exact (no_writeChar_split h (by simp [hncw])).elim
            · next x a ck heq =>
              rw [heq] at hncw
              simp only [] at hncw
              have hok : (copy_key env FdId.keyFd).1 = Except.ok () := by
                rw [heq]
              obtain ⟨bytes, hcktr, hlen⟩ := copy_key_ok_trace env FdId.keyFd hok
              rw [heq] at hcktr
              simp only [] at hcktr
              split at h
              · exact (no_writeChar_split h (by simp [hncw])).elim
              · unfold writeGrant at h
                split at h
                · exact (no_writeChar_split h (by simp [hncw])).elim
                · split at h
                  · exact (no_writeChar_split h (by simp [hncw])).elim
                  · next n =>
                    split at h
                    · exact (no_writeChar_split h (by simp [hncw])).elim
                    · have hmassage :
                        ∀ (tr0 : List Ev) (s : Int),
                          tr0 ++ [Ev.openFd FdId.authFd,
                            Ev.writeChar FdId.authFd s, Ev.closeFd FdId.authFd] =
                          (tr0 ++ [Ev.openFd FdId.authFd]) ++
                            (Ev.writeChar FdId.authFd s :: [Ev.closeFd FdId.authFd]) := by
                        intro tr0 s
                        simp
                      split at h
                      all_goals
                        simp only [] at h
                        rw [hmassage] at h
                        obtain ⟨hpre, hxy, hpost⟩ :=
                          eq_append_cons_unique h
                            (by simp [hcktr, hncw]) (by simp)
                        refine ⟨created, bytes, heqEK, ?_, ?_, hlen⟩
                        · have hcs : (if created = true then GRANT_USER
                              else (50 : Int)) = c := by
                            injection hxy with h1 h2
                          rw [← hcs]
                          simp [GRANT_SECURE]
                        · rw [← hpre, hcktr]
                          simp

/-- C2: for a Secure-level device, whenever the authorization attempt writes
a grant byte to the authorized attribute, the key-provisioning path ran
(ensure_key returned whether the key was freshly created) and the byte
written is '1' (the User-level code) when the key was freshly created and
'2' (the Secure-level code) when the key already existed. -/
theorem secure_grant_byte (env : AuthEnv) (dev : TbDevice) (c : Int)
    (hsec : env.security = securityCode SecurityLevel.secure)
    (hg : Ev.writeChar FdId.authFd c ∈ (tb_device_authorize env dev).1.trace) :
    ∃ created, env.ensureKeyOk = some created ∧
      c = (if created = true then GRANT_USER else GRANT_SECURE) := by
  obtain ⟨pre, post, hsplit⟩ := List.append_of_mem hg
  obtain ⟨created, bytes, hck, hc, _, _⟩ :=
    authorize_secure_grant_shape env dev (by rw [hsec]; rfl) c pre post hsplit
  exact ⟨created, hck, hc⟩

/-- A concrete environment for a fully successful Secure-level run with an
existing (not freshly created) key. -/
def envSecureOk : AuthEnv :=
  { security := 50, dirOk := true, uidOpenOk := true,
    uidReadResult := Except.ok [65], ensureKeyOk := some false,
    keyAttrOpenOk := true, keyFileOpenOk := true,
    keyFileBytes := List.replicate TB_KEY_CHARS 7,
    keyWriteResult := some TB_KEY_CHARS, keyCloseOk := true,
    authOpenOk := true, grantWriteResult := some 1, authCloseOk := true }

theorem secure_grant_byte_witness :
    ∃ created, envSecureOk.ensureKeyOk = some created ∧
      (50 : Int) = (if created = true then GRANT_USER else GRANT_SECURE) :=
  secure_grant_byte envSecureOk devA 50 (by decide) (by decide)

/-- The events of a successful Secure-level run of tb_device_authorize that
precede the grant write, for the C3 witness. -/
def preSecure : List Ev :=
  [Ev.openDir, Ev.openFd FdId.uidFd, Ev.readAttr FdId.uidFd,
   Ev.closeFd FdId.uidFd, Ev.openFd FdId.keyFd, Ev.openFd FdId.keyFileFd,
   Ev.writeBytes FdId.keyFd (List.replicate TB_KEY_CHARS 7),
   Ev.closeFd FdId.keyFd, Ev.openFd FdId.authFd]

/-- C3: for a Secure-level device, wherever a grant byte write appears in
the trace of an authorization attempt, the events before it contain a
complete write of all TB_KEY_CHARS key bytes to the key attribute; in
particular any failure while provisioning the key aborts the attempt before
any grant write. -/
theorem secure_key_before_grant (env : AuthEnv) (dev : TbDevice)
    (hsec : env.security = securityCode SecurityLevel.secure)
    (pre post : List Ev) (c : Int)
    (h : (tb_device_authorize env dev).1.trace =
      pre ++ Ev.writeChar FdId.authFd c :: post) :
    ∃ bytes, Ev.writeBytes FdId.keyFd bytes ∈ pre ∧
      bytes.length = TB_KEY_CHARS := by
  obtain ⟨created, bytes, _, _, hb, hlen⟩ :=
    authorize_secure_grant_shape env dev (by rw [hsec]; rfl) c pre post h
  exact ⟨bytes, hb, hlen⟩

theorem secure_key_before_grant_witness :
    ∃ bytes, Ev.writeBytes FdId.keyFd bytes ∈ preSecure ∧
      bytes.length = TB_KEY_CHARS :=
  secure_key_before_grant envSecureOk devA (by decide) preSecure
    [Ev.closeFd FdId.authFd] 50 (by decide)

/-- A command environment whose engine run fails at the directory open,
with both the store and auto options requested. -/
def cmdEnvFail : CmdEnv :=
  { parseOk := true, argc := 2, lookupResult := some devA, do_store := true,
    do_auto := true, authEnv := envDirFail, storeOk := true }

theorem authorize_cmd_store_only_after_success_witness :
    (authorize_device cmdEnvFail).exit = 1 ∧
    (authorize_device cmdEnvFail).storeInvoked = false ∧
    (authorize_device cmdEnvFail).dev = some devA ∧
    (∀ e : CmdEnv, (authorize_device e).storeInvoked = true →
      ∃ d, e.lookupResult = some d ∧
        (tb_device_authorize e.authEnv d).1.ok = true) :=
  authorize_cmd_store_only_after_success cmdEnvFail devA (by decide) (by decide)
    (by decide) (by decide)
